import Mathlib

/-!
Verification development for the fleetd Raspberry Pi device agent
(`examples/agents/python-raspberry-pi/fleetd_agent.py`).

The agent's pure logic is shallowly embedded: machine words are `Nat`
reduced with explicit `% 2 ^ 32`, byte strings are `List Nat` (each entry
a byte value), fallible collaborator calls (HTTP requests, subprocesses)
are `Except String` values supplied by an environment record, and the
agent's observable side effects (command acknowledgements, update status
reports, OS actions) are traces of `Event`s.
-/

namespace FleetdAgent

/-! ### SHA-256 (`hashlib.sha256`)

`_verify_checksum` hashes the downloaded file with SHA-256 and compares
the lowercase hex digest to the expected checksum.  The hash itself is
embedded in full so that checksum claims can be settled on concrete
byte strings.  Words are `Nat` kept below `2 ^ 32`. -/

def w32 (n : Nat) : Nat := n % 4294967296

def rotr32 (x n : Nat) : Nat := (x >>> n) ||| ((x % 2 ^ n) <<< (32 - n))

def shaCh (x y z : Nat) : Nat := (x &&& y) ^^^ ((x ^^^ 4294967295) &&& z)

def shaMaj (x y z : Nat) : Nat := (x &&& y) ^^^ (x &&& z) ^^^ (y &&& z)

def bigSigma0 (x : Nat) : Nat := rotr32 x 2 ^^^ rotr32 x 13 ^^^ rotr32 x 22

def bigSigma1 (x : Nat) : Nat := rotr32 x 6 ^^^ rotr32 x 11 ^^^ rotr32 x 25

def smallSigma0 (x : Nat) : Nat := rotr32 x 7 ^^^ rotr32 x 18 ^^^ (x >>> 3)

def smallSigma1 (x : Nat) : Nat := rotr32 x 17 ^^^ rotr32 x 19 ^^^ (x >>> 10)

def shaK : List Nat :=
  [1116352408, 1899447441, 3049323471, 3921009573, 961987163,
   1508970993, 2453635748, 2870763221, 3624381080, 310598401,
   607225278, 1426881987, 1925078388, 2162078206, 2614888103,
   3248222580, 3835390401, 4022224774, 264347078, 604807628,
   770255983, 1249150122, 1555081692, 1996064986, 2554220882,
   2821834349, 2952996808, 3210313671, 3336571891, 3584528711,
   113926993, 338241895, 666307205, 773529912, 1294757372,
   1396182291, 1695183700, 1986661051, 2177026350, 2456956037,
   2730485921, 2820302411, 3259730800, 3345764771, 3516065817,
   3600352804, 4094571909, 275423344, 430227734, 506948616,
   659060556, 883997877, 958139571, 1322822218, 1537002063,
   1747873779, 1955562222, 2024104815, 2227730452, 2361852424,
   2428436474, 2756734187, 3204031479, 3329325298]

def shaH0 : List Nat :=
  [1779033703, 3144134277, 1013904242, 2773480762,
   1359893119, 2600822924, 528734635, 1541459225]

/-- Extend a 16-word block to the 64-word message schedule. -/
def buildW (w : List Nat) : Nat → List Nat
  | 0 => w
  | fuel + 1 =>
    let n := w.length
    let nw := w32 (smallSigma1 (w.getD (n - 2) 0) + w.getD (n - 7) 0 +
                   smallSigma0 (w.getD (n - 15) 0) + w.getD (n - 16) 0)
    buildW (w ++ [nw]) fuel

def compressStep (st : List Nat) (kt wt : Nat) : List Nat :=
  match st with
  | [a, b, c, d, e, f, g, h] =>
    let t1 := w32 (h + bigSigma1 e + shaCh e f g + kt + wt)
    let t2 := w32 (bigSigma0 a + shaMaj a b c)
    [w32 (t1 + t2), a, b, c, w32 (d + t1), e, f, g]
  | _ => st

def compressBlock (h : List Nat) (block : List Nat) : List Nat :=
  let w := buildW block 48
  let st := (List.zip shaK w).foldl (fun s p => compressStep s p.1 p.2) h
  List.zipWith (fun x y => w32 (x + y)) h st

/-- `n` bytes, big-endian, of the value `v`. -/
def beBytes (n v : Nat) : List Nat :=
  match n with
  | 0 => []
  | m + 1 => ((v >>> (8 * m)) % 256) :: beBytes m v

/-- SHA-256 padding: append `0x80`, zero bytes, then the 64-bit big-endian
bit length, reaching a multiple of 64 bytes. -/
def padMessage (msg : List Nat) : List Nat :=
  let L := msg.length
  let zeros := (64 - (L + 9) % 64) % 64
  msg ++ [0x80] ++ List.replicate zeros 0 ++ beBytes 8 (L * 8)

def bytesToWords : List Nat → List Nat
  | b0 :: b1 :: b2 :: b3 :: rest =>
    (((b0 % 256) <<< 24) ||| ((b1 % 256) <<< 16) ||| ((b2 % 256) <<< 8) ||| (b3 % 256))
      :: bytesToWords rest
  | _ => []

def processBlocks (h : List Nat) : List Nat → List Nat
  | w0 :: w1 :: w2 :: w3 :: w4 :: w5 :: w6 :: w7 ::
    w8 :: w9 :: w10 :: w11 :: w12 :: w13 :: w14 :: w15 :: rest =>
    processBlocks
      (compressBlock h [w0, w1, w2, w3, w4, w5, w6, w7,
                        w8, w9, w10, w11, w12, w13, w14, w15]) rest
  | _ => h

def hexDigitChar (n : Nat) : Char :=
  if n < 10 then Char.ofNat (48 + n) else Char.ofNat (87 + n)

/-- Lowercase hex rendering of one 32-bit word, most significant nibble
first. -/
def wordToHex (w : Nat) : List Char :=
  (List.range 8).map fun i => hexDigitChar ((w >>> (4 * (7 - i))) % 16)

/-- `hashlib.sha256(bytes).hexdigest()`: lowercase hex digest of the
message's SHA-256. -/
def sha256hexdigest (msg : List Nat) : String :=
  ⟨((processBlocks shaH0 (bytesToWords (padMessage msg))).map wordToHex).flatten⟩

/-! ### Data model

`_execute_command`, `_handle_update_command` and their helpers operate on
a command dictionary and report through HTTP calls.  A `Command` carries
the fields the agent reads (`command['id']`, `command['command']`,
`command.get('payload', {})`); `Payload` carries every payload key the
agent reads via `.get`, with the dictionary defaults made explicit at the
use sites.  Observable effects are collected in an `Event` trace:
`_acknowledge_command` posts, `_report_update_status` posts, and OS-level
actions (subprocess calls, `_install_update`). -/

structure ExecResult where
  stdout : String
  stderr : String
  returncode : Int
deriving DecidableEq, Repr

inductive Event where
  | ack (commandId : String) (status : String)
      (result : Option ExecResult) (error : Option String)
  | updateStatus (updateId : String) (status : String)
      (progress : Option Nat) (error : Option String)
  | installUpdate (file : String)
  | osReboot
  | runScript (script : String) (timeout : Nat)
deriving DecidableEq, Repr

/-- `_acknowledge_command(command_id, status, message=None, result=None,
error=None)`: builds the ack body.  `result` is attached when truthy (the
only caller passing one passes a 3-key dict, always truthy, modelled as
`Option`); `error` is attached only when a non-empty string (`if error:`).
The HTTP post itself is wrapped in try/except, so acknowledging never
raises. -/
def acknowledge_command (command_id status : String)
    (result : Option ExecResult) (error : Option String) : Event :=
  Event.ack command_id status result
    (match error with
     | some e => if e = "" then none else some e
     | none => none)

/-- `_report_update_status(update_id, status, progress=None, error=None)`:
`progress` is attached whenever not `None` (`is not None`, so 0 is kept);
`error` only when a non-empty string.  The post is wrapped in try/except,
so reporting never raises. -/
def report_update_status (update_id status : String)
    (progress : Option Nat) (error : Option String) : Event :=
  Event.updateStatus update_id status progress
    (match error with
     | some e => if e = "" then none else some e
     | none => none)

structure Payload where
  script : String
  timeout : Nat
  update_id : String
  download_url : String
  checksum : String
  reboot_required : Bool
  log_type : String
  since : String
deriving DecidableEq, Repr

structure Command where
  id : String
  command : String
  payload : Payload
deriving DecidableEq, Repr

/-- `_verify_checksum(file_path, expected_checksum)`: SHA-256 the file
contents (read in 4096-byte blocks, which hashes exactly the stored
bytes) and compare the lowercase hex digest with `==`. -/
def verify_checksum (file_bytes : List Nat) (expected_checksum : String) : Bool :=
  sha256hexdigest file_bytes == expected_checksum

/-- `_install_update` writes `~/.fleetd/updates/{update_id}.bin`. -/
def update_file_path (update_id : String) : String :=
  "~/.fleetd/updates/" ++ update_id ++ ".bin"

/-- The HTTP response stream feeding `_download_update`: the advertised
`content-length` (0 when the header is absent), the chunk contents
delivered by `iter_content`, and, when the transfer or the initial
request fails, the error it raises after the delivered chunks. -/
structure DownloadStream where
  totalSize : Nat
  chunks : List (List Nat)
  err : Option String
deriving DecidableEq, Repr

/-- The chunk loop of `_download_update`: each chunk is appended to the
file and counted; when `total_size > 0` a progress report
`int((downloaded / total_size) * 50)` is posted for every chunk.
(The Python value is computed through float division; truncated natural
division agrees with it on the monotonicity and `≤ 50` facts used here.) -/
def download_events (update_id : String) (total : Nat) :
    Nat → List (List Nat) → List Event
  | _, [] => []
  | downloaded, c :: rest =>
    let d := downloaded + c.length
    (if total > 0 then
       [report_update_status update_id "downloading" (some (d * 50 / total)) none]
     else []) ++ download_events update_id total d rest

/-- `_handle_update_command(command_id, payload)`: report `downloading` 0,
stream the artifact (each delivered chunk may post a progress report; a
transfer failure raises into the handler's except-block), report
`verifying` 50, verify the checksum (mismatch raises
`ValueError("Checksum verification failed")`), report `installing` 75,
run `_install_update`, report `completed` 100, ack `completed`, and
reboot when requested.  Every raise lands in the except-block, which
reports `failed` (no progress value) and acks `failed` with the error
text. -/
def handle_update_command (command_id : String) (p : Payload)
    (s : DownloadStream) : List Event :=
  report_update_status p.update_id "downloading" (some 0) none ::
  (download_events p.update_id s.totalSize 0 s.chunks ++
   match s.err with
   | some e =>
     [report_update_status p.update_id "failed" none (some e),
      acknowledge_command command_id "failed" none (some e)]
   | none =>
     report_update_status p.update_id "verifying" (some 50) none ::
     (if verify_checksum s.chunks.flatten p.checksum then
        [report_update_status p.update_id "installing" (some 75) none,
         Event.installUpdate (update_file_path p.update_id),
         report_update_status p.update_id "completed" (some 100) none,
         acknowledge_command command_id "completed" none none] ++
        (if p.reboot_required then [Event.osReboot] else [])
      else
        [report_update_status p.update_id "failed" none
           (some "Checksum verification failed"),
         acknowledge_command command_id "failed" none
           (some "Checksum verification failed")]))

/-- Collaborator outcomes for one `_execute_command` call: the reboot
subprocess, the script subprocess (`Except` for `TimeoutExpired`/OS
errors), the update download stream, `journalctl` output, and the log
upload. -/
structure CmdEnv where
  rebootResult : Except String Unit
  scriptResult : Except String ExecResult
  stream : DownloadStream
  logsResult : Except String String
  uploadResult : Except String Unit
deriving Repr

/-- `_collect_and_upload_logs`: collect (only `system` uses the
collaborator; other types produce a placeholder string), upload, ack
`completed`; its own try/except turns any raise into a `failed` ack. -/
def collect_and_upload_logs (command_id : String) (p : Payload)
    (env : CmdEnv) : List Event :=
  match (if p.log_type = "system" then env.logsResult
         else Except.ok ("Log collection not implemented for type: " ++ p.log_type)) with
  | Except.error e => [acknowledge_command command_id "failed" none (some e)]
  | Except.ok _ =>
    match env.uploadResult with
    | Except.error e => [acknowledge_command command_id "failed" none (some e)]
    | Except.ok _ => [acknowledge_command command_id "completed" none none]

/-- The dispatch chain of `_execute_command` (lines 384-423): the events
each branch emits, together with the exception, if any, that escapes the
branch into the surrounding except-block.  `update` and `collect_logs`
have their own handlers and never raise; the `else` branch acks `failed`
with `"Unknown command type: " ++ type` and touches nothing else. -/
def dispatch_command (cmd : Command) (env : CmdEnv) :
    List Event × Option String :=
  if cmd.command = "reboot" then
    match env.rebootResult with
    | Except.ok _ =>
      ([acknowledge_command cmd.id "executing" none none, Event.osReboot], none)
    | Except.error e =>
      ([acknowledge_command cmd.id "executing" none none], some e)
  else if cmd.command = "execute" then
    match env.scriptResult with
    | Except.ok r =>
      ([acknowledge_command cmd.id "executing" none none,
        Event.runScript cmd.payload.script cmd.payload.timeout,
        acknowledge_command cmd.id
          (if r.returncode = 0 then "completed" else "failed") (some r) none], none)
    | Except.error e =>
      ([acknowledge_command cmd.id "executing" none none,
        Event.runScript cmd.payload.script cmd.payload.timeout], some e)
  else if cmd.command = "update" then
    (handle_update_command cmd.id cmd.payload env.stream, none)
  else if cmd.command = "collect_logs" then
    (collect_and_upload_logs cmd.id cmd.payload env, none)
  else
    ([acknowledge_command cmd.id "failed" none
        (some ("Unknown command type: " ++ cmd.command))], none)

/-- `_execute_command(command)`: ack `received`, run the dispatch chain,
and catch any exception it raises, converting it into a final `failed`
ack carrying `str(e)`.  The second component is the exception escaping
to the caller. -/
def execute_command (cmd : Command) (env : CmdEnv) :
    List Event × Option String :=
  let r := dispatch_command cmd env
  let evs := acknowledge_command cmd.id "received" none none :: r.1
  match r.2 with
  | none => (evs, none)
  | some e => (evs ++ [acknowledge_command cmd.id "failed" none (some e)], none)

/-- The progress values carried by the update-status reports of a trace,
in order. -/
def progress_values (evs : List Event) : List Nat :=
  evs.filterMap fun e =>
    match e with
    | Event.updateStatus _ _ p _ => p
    | _ => none

/-! ### Heartbeat wake signal

`__init__` creates `self.command_queue = Queue()` — an unbounded FIFO —
and `send_heartbeat` puts `'poll_commands'` whenever the server reports
`pending_commands > 0`; `_command_loop` gets one entry (or times out)
per iteration.  The queue is modelled as the list of pending entries. -/

/-- The queue effect of one `send_heartbeat` whose server response
carries `pending_commands`: `Queue.put` appends one entry when
`pending_commands > 0`. -/
def send_heartbeat_signal (pending_commands : Nat) (q : List String) : List String :=
  if pending_commands > 0 then q ++ ["poll_commands"] else q

/-! ### Enrollment and startup -/

structure Credentials where
  device_id : String
  device_token : String
deriving DecidableEq, Repr

/-- The mutable agent state `enroll`/`_load_credentials` touch:
`self.device_id`, `self.config.device_token`, the session's
`X-Device-Token` header, and the on-disk `~/.fleetd/credentials.json`
file. -/
structure AgentState where
  device_id : Option String
  config_device_token : Option String
  session_token_header : Option String
  credentials_file : Option Credentials
deriving DecidableEq, Repr

structure EnrollResponse where
  status_code : Nat
  device_id : String
  device_token : String
deriving DecidableEq, Repr

/-- `enroll()`: posts the enrollment request; a network failure or any
raise inside is caught and yields `False`.  A 409 response returns `True`
immediately — before any assignment or save.  Otherwise
`raise_for_status` raises on 4xx/5xx (caught → `False`); on success the
device id, config token and session header are set and the credentials
are saved to disk. -/
def enroll (st : AgentState) (resp : Except String EnrollResponse) :
    Bool × AgentState :=
  match resp with
  | Except.error _ => (false, st)
  | Except.ok r =>
    if r.status_code = 409 then (true, st)
    else if 400 ≤ r.status_code then (false, st)
    else
      (true,
       { st with
         device_id := some r.device_id,
         config_device_token := some r.device_token,
         session_token_header := some r.device_token,
         credentials_file := some ⟨r.device_id, r.device_token⟩ })

/-- `_load_credentials()`: `False` when the file is absent; otherwise
read it and set device id, config token and session header. -/
def load_credentials (st : AgentState) : Bool × AgentState :=
  match st.credentials_file with
  | none => (false, st)
  | some c =>
    (true,
     { st with
       device_id := some c.device_id,
       config_device_token := some c.device_token,
       session_token_header := some c.device_token })

/-- `start()` up to the point the duties are spawned: load credentials,
else enroll; enrollment failure is fatal (`none`); otherwise the agent
proceeds to run all duties with the resulting state (`some`). -/
def start (st : AgentState) (resp : Except String EnrollResponse) :
    Option AgentState :=
  let l := load_credentials st
  if l.1 then some l.2
  else
    let e := enroll l.2 resp
    if e.1 then some e.2 else none

/-! ### Helper lemmas -/

@[simp]
theorem report_update_status_none (uid st : String) (pr : Option Nat) :
    report_update_status uid st pr none = Event.updateStatus uid st pr none := rfl

@[simp]
theorem acknowledge_command_none (cid st : String) (r : Option ExecResult) :
    acknowledge_command cid st r none = Event.ack cid st r none := rfl

theorem report_update_status_some (uid st : String) (pr : Option Nat) (e : String)
    (he : ¬ e = "") :
    report_update_status uid st pr (some e) = Event.updateStatus uid st pr (some e) := by
  simp [report_update_status, he]

theorem acknowledge_command_some (cid st : String) (r : Option ExecResult) (e : String)
    (he : ¬ e = "") :
    acknowledge_command cid st r (some e) = Event.ack cid st r (some e) := by
  simp [acknowledge_command, he]

theorem download_events_zero (uid : String) (d : Nat) (cs : List (List Nat)) :
    download_events uid 0 d cs = [] := by
  induction cs generalizing d with
  | nil => rfl
  | cons c rest ih => simp [download_events, ih]

theorem progress_values_download_cons (uid : String) (T d : Nat) (c : List Nat)
    (rest : List (List Nat)) :
    progress_values (download_events uid T d (c :: rest)) =
      (if T > 0 then [(d + c.length) * 50 / T] else []) ++
        progress_values (download_events uid T (d + c.length) rest) := by
  by_cases hT : T > 0 <;>
    simp [download_events, progress_values, hT]

theorem div50_le {a b T : Nat} (h : a ≤ b) : a * 50 / T ≤ b * 50 / T :=
  Nat.div_le_div_right (Nat.mul_le_mul h (Nat.le_refl 50))

theorem download_progress_bounds (uid : String) (T : Nat) (cs : List (List Nat)) (d x : Nat)
    (hx : x ∈ progress_values (download_events uid T d cs)) :
    d * 50 / T ≤ x ∧ x ≤ (d + (cs.map List.length).sum) * 50 / T := by
  induction cs generalizing d with
  | nil => simp [download_events, progress_values] at hx
  | cons c rest ih =>
    rw [progress_values_download_cons] at hx
    rcases List.mem_append.1 hx with h1 | h2
    · by_cases hT : T > 0
      · simp only [hT, if_true, List.mem_singleton] at h1
        subst h1
        exact ⟨div50_le (by omega),
          div50_le (by simp only [List.map_cons, List.sum_cons]; omega)⟩
      · simp [hT] at h1
    · have hb := ih (d + c.length) h2
      refine ⟨le_trans (div50_le (by omega)) hb.1, le_trans hb.2 (div50_le ?_)⟩
      simp only [List.map_cons, List.sum_cons]; omega

theorem download_progress_sorted (uid : String) (T : Nat) (cs : List (List Nat)) (d : Nat) :
    List.Pairwise (· ≤ ·) (progress_values (download_events uid T d cs)) := by
  induction cs generalizing d with
  | nil => simp [download_events, progress_values]
  | cons c rest ih =>
    rw [progress_values_download_cons]
    by_cases hT : T > 0
    · simp only [hT, if_true, List.singleton_append]
      refine List.pairwise_cons.2 ⟨?_, ih (d + c.length)⟩
      intro b hb
      exact (download_progress_bounds uid T rest (d + c.length) b hb).1
    · simpa [hT] using ih (d + c.length)

theorem install_not_mem_download (uid : String) (T d : Nat) (cs : List (List Nat))
    (f : String) :
    Event.installUpdate f ∉ download_events uid T d cs := by
  induction cs generalizing d with
  | nil => simp [download_events]
  | cons c rest ih =>
    by_cases hT : T > 0 <;>
      simp [download_events, hT, ih (d + c.length), report_update_status]

theorem progress_values_handle_err (command_id : String) (p : Payload) (s : DownloadStream)
    (e : String) (he : s.err = some e) :
    progress_values (handle_update_command command_id p s) =
      0 :: progress_values (download_events p.update_id s.totalSize 0 s.chunks) := by
  simp [handle_update_command, he, progress_values, report_update_status,
    acknowledge_command]

theorem progress_values_handle_ok (command_id : String) (p : Payload) (s : DownloadStream)
    (he : s.err = none) :
    progress_values (handle_update_command command_id p s) =
      0 :: (progress_values (download_events p.update_id s.totalSize 0 s.chunks) ++
        50 :: (if verify_checksum s.chunks.flatten p.checksum then [75, 100] else [])) := by
  by_cases hv : verify_checksum s.chunks.flatten p.checksum <;>
    by_cases hr : p.reboot_required <;>
      simp [handle_update_command, he, hv, hr, progress_values, report_update_status,
        acknowledge_command]

theorem hexDigitChar_toLower (n : Nat) (h : n < 16) :
    Char.toLower (hexDigitChar n) = hexDigitChar n := by
  interval_cases n <;> decide

theorem sha256hexdigest_lowercase (msg : List Nat) :
    ∀ c ∈ (sha256hexdigest msg).data, Char.toLower c = c := by
  intro c hc
  have hc' : c ∈ ((processBlocks shaH0 (bytesToWords (padMessage msg))).map
      wordToHex).flatten := hc
  rcases List.mem_flatten.1 hc' with ⟨l, hl, hcl⟩
  rcases List.mem_map.1 hl with ⟨w, _, rfl⟩
  rcases List.mem_map.1 hcl with ⟨i, _, rfl⟩
  exact hexDigitChar_toLower _ (Nat.mod_lt _ (by omega))

/-- Concrete inputs used by the witnesses. -/
def samplePayload : Payload :=
  { script := "echo hi", timeout := 60, update_id := "u1",
    download_url := "http://server/u1.bin", checksum := "deadbeef",
    reboot_required := false, log_type := "system", since := "1h" }

def sampleStream : DownloadStream := { totalSize := 0, chunks := [], err := none }

def sampleEnv : CmdEnv :=
  { rebootResult := Except.ok (), scriptResult := Except.ok ⟨"hi", "", 0⟩,
    stream := sampleStream, logsResult := Except.ok "logs",
    uploadResult := Except.ok () }

/-! ### Claim theorems -/

/-- C1: for every update job whose downloaded artifact hashes to a SHA-256
hex digest different from the expected checksum, `_handle_update_command`
reports the terminal `failed` status, acks the command `failed`, and
`_install_update` is never invoked (no install event appears in the
trace, for any file path). -/
theorem checksum_mismatch_never_installs (command_id : String) (p : Payload)
    (s : DownloadStream) (hok : s.err = none)
    (hne : sha256hexdigest s.chunks.flatten ≠ p.checksum) :
    Event.updateStatus p.update_id "failed" none (some "Checksum verification failed")
        ∈ handle_update_command command_id p s ∧
    Event.ack command_id "failed" none (some "Checksum verification failed")
        ∈ handle_update_command command_id p s ∧
    ∀ f, Event.installUpdate f ∉ handle_update_command command_id p s := by
  have hv : verify_checksum s.chunks.flatten p.checksum = false := by
    simp [verify_checksum]
    exact hne
  have hmsg : ¬ ("Checksum verification failed" : String) = "" := by decide
  have htrace : handle_update_command command_id p s =
      Event.updateStatus p.update_id "downloading" (some 0) none ::
      (download_events p.update_id s.totalSize 0 s.chunks ++
       [Event.updateStatus p.update_id "verifying" (some 50) none,
        Event.updateStatus p.update_id "failed" none (some "Checksum verification failed"),
        Event.ack command_id "failed" none (some "Checksum verification failed")]) := by
    simp [handle_update_command, hok, hv,
      report_update_status_some _ _ _ _ hmsg, acknowledge_command_some _ _ _ _ hmsg]
  rw [htrace]
  refine ⟨by simp, by simp, ?_⟩
  intro f
  simp [install_not_mem_download]

/-- Witness for C1: the empty artifact against expected checksum
`"deadbeef"` fails verification, reports and acks `failed`, and never
installs. -/
theorem checksum_mismatch_never_installs_witness :
    Event.updateStatus "u1" "failed" none (some "Checksum verification failed")
        ∈ handle_update_command "c1" samplePayload sampleStream ∧
    Event.ack "c1" "failed" none (some "Checksum verification failed")
        ∈ handle_update_command "c1" samplePayload sampleStream ∧
    Event.installUpdate (update_file_path "u1")
        ∉ handle_update_command "c1" samplePayload sampleStream := by
  have h := checksum_mismatch_never_installs "c1" samplePayload sampleStream
    (by decide) (by decide)
  exact ⟨h.1, h.2.1, h.2.2 (update_file_path "u1")⟩

/-- C2 counterexample: the claim says an `expected_checksum` differing
from the computed digest only in letter case passes verification.  For
the empty artifact, the uppercase form of the computed digest lowercases
back to the digest (so it differs only in case), yet `_verify_checksum`
returns `False`: the comparison is case-sensitive. -/
theorem verify_checksum_case_cex :
    String.mk (("E3B0C44298FC1C149AFBF4C8996FB92427AE41E4649B934CA495991B7852B855").data.map
        Char.toLower) = sha256hexdigest [] ∧
    verify_checksum []
        "E3B0C44298FC1C149AFBF4C8996FB92427AE41E4649B934CA495991B7852B855" = false :=
  ⟨by decide, by decide⟩

/-- C2 amended: `_verify_checksum` compares the computed digest with the
expected checksum by exact, case-sensitive string equality, and the
computed digest is rendered in lowercase hex; hence an expected checksum
differing from the computed digest only in letter case fails
verification. -/
theorem verify_checksum_exact_equality (file_bytes : List Nat) (expected : String) :
    (verify_checksum file_bytes expected = true ↔
      sha256hexdigest file_bytes = expected) ∧
    (∀ c ∈ (sha256hexdigest file_bytes).data, Char.toLower c = c) :=
  ⟨by simp [verify_checksum], sha256hexdigest_lowercase file_bytes⟩

/-- Witness for C2's amended claim, at the empty artifact: verification
passes exactly on the computed digest, and the digest's first character
is already lowercase. -/
theorem verify_checksum_exact_equality_witness :
    (verify_checksum [] "e3b0c44298fc1c149afbf4c8996fb92427ae41e4649b934ca495991b7852b855" = true ↔
      sha256hexdigest [] = "e3b0c44298fc1c149afbf4c8996fb92427ae41e4649b934ca495991b7852b855") ∧
    Char.toLower (Char.ofNat 101) = Char.ofNat 101 :=
  ⟨(verify_checksum_exact_equality []
      "e3b0c44298fc1c149afbf4c8996fb92427ae41e4649b934ca495991b7852b855").1,
   (verify_checksum_exact_equality []
      "e3b0c44298fc1c149afbf4c8996fb92427ae41e4649b934ca495991b7852b855").2
     (Char.ofNat 101) (by decide)⟩

/-- C3: a command whose type is none of `reboot`, `execute`, `update`,
`collect_logs` makes `_execute_command` emit exactly two acks —
`received` then `failed` with an unknown-command-type error — and
nothing else: no `executing`, no `completed`, no OS side effect, and no
exception to the caller. -/
theorem unknown_command_two_acks (cmd : Command) (env : CmdEnv)
    (h1 : cmd.command ≠ "reboot") (h2 : cmd.command ≠ "execute")
    (h3 : cmd.command ≠ "update") (h4 : cmd.command ≠ "collect_logs") :
    execute_command cmd env =
      ([acknowledge_command cmd.id "received" none none,
        acknowledge_command cmd.id "failed" none
          (some ("Unknown command type: " ++ cmd.command))], none) := by
  simp [execute_command, dispatch_command, h1, h2, h3, h4]

/-- Witness for C3 at a concrete `frobnicate` command. -/
theorem unknown_command_two_acks_witness :
    execute_command ⟨"c3", "frobnicate", samplePayload⟩ sampleEnv =
      ([acknowledge_command "c3" "received" none none,
        acknowledge_command "c3" "failed" none
          (some ("Unknown command type: " ++ "frobnicate"))], none) :=
  unknown_command_two_acks ⟨"c3", "frobnicate", samplePayload⟩ sampleEnv
    (by decide) (by decide) (by decide) (by decide)

/-- C4: when an `execute` command's script runs to completion, the trace
is `received`, `executing`, the script run, then a final ack whose status
is `completed` exactly when the captured exit code is zero, carrying the
{stdout, stderr, exit code} triple in both cases. -/
theorem execute_exit_code_matches (cmd : Command) (env : CmdEnv) (r : ExecResult)
    (ht : cmd.command = "execute") (hr : env.scriptResult = Except.ok r) :
    execute_command cmd env =
      ([acknowledge_command cmd.id "received" none none,
        acknowledge_command cmd.id "executing" none none,
        Event.runScript cmd.payload.script cmd.payload.timeout,
        acknowledge_command cmd.id
          (if r.returncode = 0 then "completed" else "failed") (some r) none], none) ∧
    ((if r.returncode = 0 then "completed" else "failed") = "completed" ↔
      r.returncode = 0) := by
  constructor
  · simp [execute_command, dispatch_command, ht, hr]
  · by_cases h0 : r.returncode = 0 <;> simp [h0]

/-- Witness for C4 at a concrete script result with exit code 0. -/
theorem execute_exit_code_matches_witness :
    execute_command ⟨"c4", "execute", samplePayload⟩ sampleEnv =
      ([acknowledge_command "c4" "received" none none,
        acknowledge_command "c4" "executing" none none,
        Event.runScript samplePayload.script samplePayload.timeout,
        acknowledge_command "c4"
          (if ((⟨"hi", "", 0⟩ : ExecResult)).returncode = 0 then "completed" else "failed")
          (some ⟨"hi", "", 0⟩) none], none) ∧
    ((if ((⟨"hi", "", 0⟩ : ExecResult)).returncode = 0 then "completed" else "failed") =
        "completed" ↔ ((⟨"hi", "", 0⟩ : ExecResult)).returncode = 0) :=
  execute_exit_code_matches ⟨"c4", "execute", samplePayload⟩ sampleEnv ⟨"hi", "", 0⟩
    rfl rfl

/-- C5: the progress values reported over one update job are
monotonically non-decreasing until the terminal phase.  The hypothesis
states the transport guarantee of the HTTP client feeding
`_download_update`: when a `content-length` header is advertised
(`totalSize > 0`), the stream never delivers more bytes than advertised
(Python's http stack stops reading at `Content-Length`); `totalSize = 0`
models an absent header, in which case no per-chunk progress is
reported. -/
theorem update_progress_monotone (command_id : String) (p : Payload)
    (s : DownloadStream)
    (h : s.totalSize = 0 ∨ (s.chunks.map List.length).sum ≤ s.totalSize) :
    List.Pairwise (· ≤ ·) (progress_values (handle_update_command command_id p s)) := by
  have hle50 : ∀ x ∈ progress_values
      (download_events p.update_id s.totalSize 0 s.chunks), x ≤ 50 := by
    intro x hx
    rcases h with h0 | hsum
    · rw [h0, download_events_zero] at hx
      simp [progress_values] at hx
    · rcases Nat.eq_zero_or_pos s.totalSize with h0 | hT
      · rw [h0, download_events_zero] at hx
        simp [progress_values] at hx
      · have hub := (download_progress_bounds p.update_id s.totalSize s.chunks 0 x hx).2
        calc x ≤ (0 + (s.chunks.map List.length).sum) * 50 / s.totalSize := hub
          _ ≤ s.totalSize * 50 / s.totalSize := div50_le (by omega)
          _ = 50 := Nat.mul_div_cancel_left 50 hT
  cases he : s.err with
  | some e =>
    rw [progress_values_handle_err command_id p s e he]
    exact List.pairwise_cons.2 ⟨fun b _ => Nat.zero_le b,
      download_progress_sorted p.update_id s.totalSize s.chunks 0⟩
  | none =>
    rw [progress_values_handle_ok command_id p s he]
    refine List.pairwise_cons.2 ⟨fun b _ => Nat.zero_le b, ?_⟩
    refine List.pairwise_append.2
      ⟨download_progress_sorted p.update_id s.totalSize s.chunks 0, ?_, ?_⟩
    · by_cases hv : verify_checksum s.chunks.flatten p.checksum <;> simp [hv]
    · intro a ha b hb
      have ha50 : a ≤ 50 := hle50 a ha
      have hb50 : 50 ≤ b := by
        by_cases hv : verify_checksum s.chunks.flatten p.checksum <;>
          simp [hv] at hb <;> omega
      omega

/-- Witness for C5: a two-chunk download with advertised size 2. -/
theorem update_progress_monotone_witness :
    List.Pairwise (· ≤ ·) (progress_values (handle_update_command "c5" samplePayload
      { totalSize := 2, chunks := [[0], [0]], err := none })) :=
  update_progress_monotone "c5" samplePayload
    { totalSize := 2, chunks := [[0], [0]], err := none } (Or.inr (by decide))

/-- C6 counterexample: the claim says the number of progress reports
during a download with known total size is strictly smaller than the
number of chunks; but `_download_update` reports progress on every
received chunk, so a 2-chunk download with known total size posts
exactly 2 progress reports, not fewer. -/
theorem download_reports_not_fewer_cex :
    ¬ ((progress_values (download_events "u" 2 0 [[0], [0]])).length <
        ([[0], [0]] : List (List Nat)).length) := by decide

/-- C6 amended: with a known total size, `_download_update` reports one
progress update per received chunk — the number of progress reports
during a download equals the number of chunks (and with unknown total
size, none are reported during the download). -/
theorem download_reports_once_per_chunk (uid : String) (T d : Nat)
    (cs : List (List Nat)) (hT : 0 < T) :
    (progress_values (download_events uid T d cs)).length = cs.length := by
  induction cs generalizing d with
  | nil => simp [download_events, progress_values]
  | cons c rest ih =>
    rw [progress_values_download_cons]
    simp [hT, ih (d + c.length)]

/-- Witness for C6's amended claim: two chunks produce two reports. -/
theorem download_reports_once_per_chunk_witness :
    (progress_values (download_events "u" 2 0 [[0], [0]])).length =
      ([[0], [0]] : List (List Nat)).length :=
  download_reports_once_per_chunk "u" 2 0 [[0], [0]] (by decide)

/-- C7: `_execute_command` never lets an exception escape to its caller,
and whenever the dispatch chain raises, the exception is converted into
a final `failed` ack carrying the error text. -/
theorem executor_never_raises (cmd : Command) (env : CmdEnv) :
    (execute_command cmd env).2 = none ∧
    ∀ e, (dispatch_command cmd env).2 = some e →
      (execute_command cmd env).1.getLast? =
        some (acknowledge_command cmd.id "failed" none (some e)) := by
  constructor
  · rcases h : (dispatch_command cmd env).2 with _ | e <;>
      simp [execute_command, h]
  · intro e he
    simp only [execute_command, he]
    rw [List.getLast?_concat]

/-- Witness for C7: a script whose subprocess raises `boom` yields a
final `failed` ack and no escaping exception. -/
theorem executor_never_raises_witness :
    (execute_command ⟨"c7", "execute", samplePayload⟩
      { sampleEnv with scriptResult := Except.error "boom" }).2 = none ∧
    (execute_command ⟨"c7", "execute", samplePayload⟩
      { sampleEnv with scriptResult := Except.error "boom" }).1.getLast? =
      some (acknowledge_command "c7" "failed" none (some "boom")) :=
  ⟨(executor_never_raises ⟨"c7", "execute", samplePayload⟩
      { sampleEnv with scriptResult := Except.error "boom" }).1,
   (executor_never_raises ⟨"c7", "execute", samplePayload⟩
      { sampleEnv with scriptResult := Except.error "boom" }).2 "boom" (by decide)⟩

/-- C8: a 409 ("already enrolled") response makes `enroll` return success
with the agent state — in particular the on-disk credential file —
untouched, and when no saved credentials exist, `start` proceeds past
enrollment with that same state. -/
theorem enroll_conflict_success (st : AgentState) (r : EnrollResponse)
    (h409 : r.status_code = 409) :
    enroll st (Except.ok r) = (true, st) ∧
    (st.credentials_file = none → start st (Except.ok r) = some st) := by
  constructor
  · simp [enroll, h409]
  · intro hf
    simp [start, load_credentials, hf, enroll, h409]

/-- Witness for C8 at a fresh state and a concrete 409 response. -/
theorem enroll_conflict_success_witness :
    enroll ⟨none, none, none, none⟩ (Except.ok ⟨409, "d", "t"⟩) =
      (true, ⟨none, none, none, none⟩) ∧
    start ⟨none, none, none, none⟩ (Except.ok ⟨409, "d", "t"⟩) =
      some ⟨none, none, none, none⟩ :=
  ⟨(enroll_conflict_success ⟨none, none, none, none⟩ ⟨409, "d", "t"⟩ rfl).1,
   (enroll_conflict_success ⟨none, none, none, none⟩ ⟨409, "d", "t"⟩ rfl).2 rfl⟩

/-- C9 counterexample: the claim says at most one wake notification is
pending and a heartbeat signalling while the poller is busy enqueues no
additional backlog entry; but the wake channel is an unbounded
`Queue()`, and two heartbeats observing pending commands without an
intervening poll leave two entries queued. -/
theorem heartbeat_wake_not_single_slot_cex :
    ¬ ((send_heartbeat_signal 1 (send_heartbeat_signal 1 [])).length ≤ 1) := by decide

/-- C9 amended: the early-wake signal is an unbounded FIFO queue — a
heartbeat observing pending commands never blocks (the put always
appends), but each such heartbeat enqueues one entry, so n signalling
heartbeats with no intervening poll leave n pending entries. -/
theorem heartbeat_backlog_growth (n : Nat) :
    ((fun q => send_heartbeat_signal 1 q)^[n] []).length = n := by
  have hstep : ∀ q : List String, (send_heartbeat_signal 1 q).length = q.length + 1 := by
    intro q
    simp [send_heartbeat_signal]
  induction n with
  | zero => rfl
  | succ k ih =>
    rw [Function.iterate_succ_apply']
    exact (hstep _).trans (by rw [ih])

/-- C10: on the 409 branch `enroll` succeeds while leaving the device id,
the configured device token, the session auth header and the on-disk
credential file all unchanged; consequently a fresh agent with no saved
credentials proceeds through `start` with device id `None` and no device
token set. -/
theorem enroll_conflict_frame (st : AgentState) (r : EnrollResponse)
    (h409 : r.status_code = 409) :
    ((enroll st (Except.ok r)).1 = true ∧
     (enroll st (Except.ok r)).2.device_id = st.device_id ∧
     (enroll st (Except.ok r)).2.config_device_token = st.config_device_token ∧
     (enroll st (Except.ok r)).2.session_token_header = st.session_token_header ∧
     (enroll st (Except.ok r)).2.credentials_file = st.credentials_file) ∧
    start ⟨none, none, none, none⟩ (Except.ok r) = some ⟨none, none, none, none⟩ := by
  simp [enroll, h409, start, load_credentials]

/-- Witness for C10 at a populated state and a concrete 409 response. -/
theorem enroll_conflict_frame_witness :
    ((enroll ⟨some "d0", some "t0", some "t0", some ⟨"d0", "t0"⟩⟩
        (Except.ok ⟨409, "d", "t"⟩)).1 = true ∧
     (enroll ⟨some "d0", some "t0", some "t0", some ⟨"d0", "t0"⟩⟩
        (Except.ok ⟨409, "d", "t"⟩)).2.device_id = some "d0" ∧
     (enroll ⟨some "d0", some "t0", some "t0", some ⟨"d0", "t0"⟩⟩
        (Except.ok ⟨409, "d", "t"⟩)).2.config_device_token = some "t0" ∧
     (enroll ⟨some "d0", some "t0", some "t0", some ⟨"d0", "t0"⟩⟩
        (Except.ok ⟨409, "d", "t"⟩)).2.session_token_header = some "t0" ∧
     (enroll ⟨some "d0", some "t0", some "t0", some ⟨"d0", "t0"⟩⟩
        (Except.ok ⟨409, "d", "t"⟩)).2.credentials_file = some ⟨"d0", "t0"⟩) ∧
    start ⟨none, none, none, none⟩ (Except.ok ⟨409, "d", "t"⟩) =
      some ⟨none, none, none, none⟩ :=
  enroll_conflict_frame ⟨some "d0", some "t0", some "t0", some ⟨"d0", "t0"⟩⟩
    ⟨409, "d", "t"⟩ rfl

end FleetdAgent
